import Mathlib

/-!
# Verification of the TextAnalyser segmentation and scoring core

A shallow embedding, in Lean 4, of the text-analysis functions of the
TextAnalyser repository (vanilla JavaScript): sentence/word/paragraph
segmentation, the heuristic syllable counters, the readability formulas
with their clamping, the word-frequency analyzer, and the public
`TextAnalyzerAPI.analyze` boundary with its memo cache.

Strings are modelled as Lean `String`/`List Char`; JavaScript numbers are
modelled as exact rationals extended with `NaN`/`±Infinity` (`JSNum`)
where the code can produce them; fallible JavaScript calls (methods on a
non-string receiver throwing `TypeError`) are modelled with `Except`.
Regular-expression operations are embedded as explicit scanners that
replicate the semantics of the concrete regexes appearing in the source.
-/

namespace TextAnalyser

/-! ## Character-level helpers

ASCII models of the character classes used by the source's regexes:
`\w` = `[A-Za-z0-9_]`, `\s` (ASCII part), sentence terminators `[.!?]`,
and ASCII lower-casing for `toLowerCase()` / case-insensitive matching. -/

def asciiLower (c : Char) : Char :=
  if 'A' ≤ c ∧ c ≤ 'Z' then Char.ofNat (c.toNat + 32) else c

def isWordChar (c : Char) : Bool :=
  c.isAlpha || c.isDigit || c == '_'

def jsWS (c : Char) : Bool :=
  c == ' ' || c == '\t' || c == '\n' || c == '\r' || c == '\x0b' || c == '\x0c'

def isTermCh (c : Char) : Bool :=
  c == '.' || c == '!' || c == '?'

/-- JavaScript `String.prototype.trim()` (ASCII whitespace model). -/
def trimWS (l : List Char) : List Char :=
  ((l.dropWhile jsWS).reverse.dropWhile jsWS).reverse

/-! ## Syllable counters

Two distinct implementations exist in the source and are embedded
separately: `Utils.text.countSyllables` (src/scripts/utils.js 110-123,
vowel-group regex with a silent-e `pop`) and
`AdvancedTextParser.countSyllables` (src/scripts/frequencyAnalyzer.js
1688-1743, character scan with silent-e / `-le` / exception-table
corrections). -/

/-- Vowel class `aeiouy` used by both counters. -/
def isVowelY (c : Char) : Bool :=
  c == 'a' || c == 'e' || c == 'i' || c == 'o' || c == 'u' || c == 'y'

/-- Number of vowel-group starts: positions where a vowel follows a
non-vowel (the flag is `previousWasVowel`).  This is both the character
scan of `AdvancedTextParser.countSyllables` and the number of matches of
`/[aeiouy]+/g` on the same lower-cased letters. -/
def vowelGroupStarts : List Char → Bool → ℕ
  | [], _ => 0
  | c :: rest, prevVowel =>
    (if isVowelY c && !prevVowel then 1 else 0) + vowelGroupStarts rest (isVowelY c)

/-- `cleanWord` of `AdvancedTextParser.countSyllables`:
`word.toLowerCase().replace(/[^a-z]/g, '')`. -/
def cleanLetters (word : String) : List Char :=
  (word.data.map asciiLower).filter (fun c => decide ('a' ≤ c) && decide (c ≤ 'z'))

/-- Rule 1 of `AdvancedTextParser.countSyllables`: the silent-e regex
`/[^aeiou]e$/i` (note: `y` counts as a consonant-class character here). -/
def silentERule (l : List Char) : Bool :=
  match l.reverse with
  | 'e' :: p :: _ => !(p == 'a' || p == 'e' || p == 'i' || p == 'o' || p == 'u')
  | _ => false

/-- Rule 2 of `AdvancedTextParser.countSyllables`: `/[^aeiouy]le$/`. -/
def consLeRule (l : List Char) : Bool :=
  match l.reverse with
  | 'e' :: 'l' :: p :: _ => !isVowelY p
  | _ => false

/-- `AdvancedTextParser.countSyllables`
(src/scripts/frequencyAnalyzer.js 1688-1743): strip to lowercase letters;
0 for empty, 1 for length ≤ 2; otherwise count vowel-group starts, apply
the silent-e and `-le` corrections, return the exception-table value for
`simile/recipe/people/chocolate`, else floor the result at 1. -/
def AdvancedTextParser.countSyllables (word : String) : ℕ :=
  let cleanWord := cleanLetters word
  if cleanWord.length = 0 then 0
  else if cleanWord.length ≤ 2 then 1
  else
    let n0 : ℤ := (vowelGroupStarts cleanWord false : ℤ)
    let n1 : ℤ := if silentERule cleanWord then n0 - 1 else n0
    let n2 : ℤ := if consLeRule cleanWord then n1 + 1 else n1
    if cleanWord = "simile".data then 3
    else if cleanWord = "recipe".data then 3
    else if cleanWord = "people".data then 2
    else if cleanWord = "chocolate".data then 3
    else (max n2 1).toNat

/-- `Utils.text.countSyllables` (src/scripts/utils.js 110-123): 0 for a
falsy word, 1 for length ≤ 3; otherwise count the matches of
`/[aeiouy]+/gi`, `pop` one match when the word ends in `e` (a no-op on an
empty match array, hence the truncated `ℕ` subtraction), floor at 1. -/
def Utils.text.countSyllables (word : String) : ℕ :=
  if word = "" then 0
  else
    let w := word.data.map asciiLower
    if w.length ≤ 3 then 1
    else
      let groups := vowelGroupStarts w false
      let groups := if w.getLast? = some 'e' then groups - 1 else groups
      max groups 1

/-! ## Word extraction

`text.match(/\b\w+\b/g)`: the matches of `\b\w+\b` are exactly the maximal
nonempty runs of word characters. -/

/-- Maximal runs of word characters (accumulator holds the current run,
reversed). -/
def wordRunsL : List Char → List Char → List (List Char)
  | [], acc => if acc.isEmpty then [] else [acc.reverse]
  | c :: rest, acc =>
    if isWordChar c then wordRunsL rest (c :: acc)
    else if acc.isEmpty then wordRunsL rest [] else acc.reverse :: wordRunsL rest []

/-- The word list `text.match(/\b\w+\b/g) || []`. -/
def wordMatches (text : String) : List String :=
  (wordRunsL text.data []).map String.mk

/-! ## Regex-replace scanners

All `String.prototype.replace(regex, …)` calls in the embedded code use
global, non-overlapping, leftmost matching of (near-)literal patterns.
`scanReplace` is the generic scanner: `tryMatch l = some n` means the
pattern matches a prefix of `l` of length `n + 1` (so a match always
consumes at least one character), and `f` maps the matched characters to
their replacement. -/

def scanReplaceGo (tryMatch : List Char → Option ℕ) (f : List Char → List Char) :
    ℕ → List Char → List Char
  | _, [] => []
  | 0, l => l
  | fuel + 1, c :: rest =>
    match tryMatch (c :: rest) with
    | some n => f ((c :: rest).take (n + 1)) ++ scanReplaceGo tryMatch f fuel (rest.drop n)
    | none => c :: scanReplaceGo tryMatch f fuel rest

/-- The scanner, fuelled with the input length so the recursion is
structural (every match consumes at least one character, so the fuel
never runs out). -/
def scanReplace (tryMatch : List Char → Option ℕ) (f : List Char → List Char)
    (l : List Char) : List Char :=
  scanReplaceGo tryMatch f l.length l

/-- Case-insensitive prefix test (for the `/…/gi` abbreviation regexes). -/
def isPrefixCI : List Char → List Char → Bool
  | [], _ => true
  | _ :: _, [] => false
  | p :: ps, c :: cs => (asciiLower p == asciiLower c) && isPrefixCI ps cs

/-- Case-sensitive prefix test. -/
def isPrefixCS : List Char → List Char → Bool
  | [], _ => true
  | _ :: _, [] => false
  | p :: ps, c :: cs => (p == c) && isPrefixCS ps cs

def ciMatcher (pat : List Char) (l : List Char) : Option ℕ :=
  if pat.isEmpty then none
  else if isPrefixCI pat l then some (pat.length - 1) else none

def csMatcher (pat : List Char) (l : List Char) : Option ℕ :=
  if pat.isEmpty then none
  else if isPrefixCS pat l then some (pat.length - 1) else none

/-- A compiled abbreviation pattern character: literal, or the regex dot
(which matches any character). -/
inductive PatChar where
  | lit (c : Char)
  | any
deriving DecidableEq, Repr

def isPrefixPat : List PatChar → List Char → Bool
  | [], _ => true
  | _ :: _, [] => false
  | .lit p :: ps, c :: cs => (p == c) && isPrefixPat ps cs
  | .any :: ps, _ :: cs => isPrefixPat ps cs

def patMatcher (pat : List PatChar) (l : List Char) : Option ℕ :=
  if pat.isEmpty then none
  else if isPrefixPat pat l then some (pat.length - 1) else none

/-- `new RegExp(abbr.replace('.', '\\.'), …)`: only the FIRST period of
the abbreviation is escaped; any later period stays a regex wildcard
(this matters for `e.g.` and `i.e.`, whose final period matches any
character). The flag records whether a period has been escaped already. -/
def mkAbbrPattern : List Char → Bool → List PatChar
  | [], _ => []
  | c :: rest, escaped =>
    if c = '.' then
      (if escaped then PatChar.any else PatChar.lit '.') :: mkAbbrPattern rest true
    else PatChar.lit c :: mkAbbrPattern rest escaped

/-! ## JavaScript `split` on a character-class regex

`s.split(/[.!?]+/)` and `s.split(/\s+/)` split on maximal runs of
separator characters, keeping the (possibly empty) pieces between runs,
including a leading/trailing empty piece; `"".split` yields `[""]`. -/

def splitRunsGo (p : Char → Bool) : List Char → List Char → Bool → List (List Char)
  | [], acc, inSep => if inSep then [[]] else [acc.reverse]
  | c :: rest, acc, inSep =>
    if inSep then
      if p c then splitRunsGo p rest acc true
      else splitRunsGo p rest [c] false
    else
      if p c then acc.reverse :: splitRunsGo p rest [] true
      else splitRunsGo p rest (c :: acc) false

/-- `s.split(re)` for a character-class-plus regex `[…]+` (`acc` is the
current piece reversed, the flag records being inside a separator run). -/
def splitRuns (p : Char → Bool) (l : List Char) : List (List Char) :=
  splitRunsGo p l [] false

/-! ## The blank-line paragraph separator `/\n\s*\n/`

A match starts at a `\n`; the greedy `\s*` then backtracks to the LAST
newline inside the maximal whitespace run that follows, which must exist
for the match to succeed. -/

/-- Index of the last `'\n'` inside the maximal leading whitespace run. -/
def wsRunLastNl : List Char → ℕ → Option ℕ → Option ℕ
  | [], _, best => best
  | c :: rest, i, best =>
    if jsWS c then wsRunLastNl rest (i + 1) (if c = '\n' then some i else best)
    else best

def paraSplitGo : ℕ → List Char → List Char → List (List Char)
  | _, [], acc => [acc.reverse]
  | 0, l, acc => [acc.reverse ++ l]
  | fuel + 1, c :: rest, acc =>
    if c = '\n' then
      match wsRunLastNl rest 0 none with
      | some k => acc.reverse :: paraSplitGo fuel (rest.drop (k + 1)) []
      | none => paraSplitGo fuel rest (c :: acc)
    else paraSplitGo fuel rest (c :: acc)

/-- `s.split(/\n\s*\n/)`, fuelled with the input length so the recursion
is structural (a match consumes at least two characters). -/
def paraSplit (l : List Char) (acc : List Char) : List (List Char) :=
  paraSplitGo l.length l acc

/-! ## AdvancedTextParser sentence parsing
(src/scripts/frequencyAnalyzer.js 1236-1380) -/

/-- `parserConfig.abbreviations`. -/
def parserAbbreviations : List String :=
  ["Mr.", "Mrs.", "Dr.", "Prof.", "Sr.", "Jr.", "vs.", "etc.", "e.g.", "i.e."]

/-- The sentinel `` `__ABBR${index}__` ``. -/
def abbrPlaceholder (i : ℕ) : String :=
  "__ABBR" ++ toString i ++ "__"

/-- The sequential abbreviation-protection loop of `sentenceParser`. -/
def protectAbbreviations (l : List Char) : List Char :=
  parserAbbreviations.enum.foldl
    (fun acc p =>
      scanReplace (patMatcher (mkAbbrPattern p.2.data false))
        (fun _ => (abbrPlaceholder p.1).data) acc) l

/-- The restore loop: each placeholder is globally replaced by its
abbreviation. -/
def restoreAbbreviations (l : List Char) : List Char :=
  parserAbbreviations.enum.foldl
    (fun acc p =>
      scanReplace (csMatcher (abbrPlaceholder p.1).data) (fun _ => p.2.data) acc) l

/-- The matches of `/([^.!?]+[.!?]+)/g`: alternating runs of at least one
non-terminator then at least one terminator.  `body` and `term` hold the
current runs, reversed. -/
def sentenceRuns : List Char → List Char → List Char → List (List Char)
  | [], body, term =>
    if body.isEmpty || term.isEmpty then [] else [body.reverse ++ term.reverse]
  | c :: rest, body, term =>
    if isTermCh c then
      if body.isEmpty then sentenceRuns rest [] []
      else sentenceRuns rest body (c :: term)
    else
      if term.isEmpty then sentenceRuns rest (c :: body) []
      else (body.reverse ++ term.reverse) :: sentenceRuns rest [c] []

inductive SentenceType where
  | declarative | interrogative | exclamatory | imperative
deriving DecidableEq, Repr

/-- The imperative-verb cues of `determineSentenceType`; the regex
`/^(please|do|…)/i` has no trailing word boundary, so it is a plain
case-insensitive prefix test. -/
def imperativeCues : List String :=
  ["please", "do", "don't", "let", "make", "help", "stop", "start"]

/-- `determineSentenceType` (src/scripts/frequencyAnalyzer.js 1327-1344). -/
def determineSentenceType (sentence : String) : SentenceType :=
  let trimmed := trimWS sentence.data
  match trimmed.getLast? with
  | some '?' => .interrogative
  | some '!' => .exclamatory
  | some '.' =>
    if imperativeCues.any (fun cue => isPrefixCI cue.data trimmed) then .imperative
    else .declarative
  | _ => .declarative

def subordinators : List String :=
  ["because", "although", "while", "since", "unless", "if"]

/-- Whole-word, case-insensitive test `\bword\b` for an all-word-character
word: some maximal word-character run of the sentence lower-cases to it. -/
def containsWholeWordCI (w : String) (sentence : String) : Bool :=
  (wordRunsL sentence.data []).any (fun r => r.map asciiLower == w.data)

/-- `calculateSentenceComplexity`
(src/scripts/frequencyAnalyzer.js 1353-1377). -/
def calculateSentenceComplexity (sentence : String) (wordCount : ℕ) : ℚ :=
  let base : ℚ := if wordCount > 25 then 0.3 else if wordCount > 15 then 0.2
    else if wordCount > 10 then 0.1 else 0
  let commas := (sentence.data.filter (· = ',')).length
  let semis := (sentence.data.filter (· = ';')).length
  let colons := (sentence.data.filter (· = ':')).length
  let c := base + (commas : ℚ) * 0.05 + (semis : ℚ) * 0.1 + (colons : ℚ) * 0.1
  let c := if subordinators.any (fun w => containsWholeWordCI w sentence) then c + 0.15 else c
  min c 1

/-- One yielded sentence object (the `index`/`charOffset` bookkeeping
fields are derivable from the position in the returned list and are not
modelled). -/
structure Sentence where
  text : String
  wordCount : ℕ
  punctuationCount : ℕ
  stype : SentenceType
  complexity : ℚ
deriving DecidableEq, Repr

/-- `AdvancedTextParser.sentenceParser`
(src/scripts/frequencyAnalyzer.js 1267-1319), with the generator's yields
collected into a list: protect the abbreviations with sentinels, match
`/([^.!?]+[.!?]+)/g`, trim each match, restore the sentinels, and attach
the per-sentence metadata. -/
def AdvancedTextParser.sentenceParser (text : String) : List Sentence :=
  if text = "" then []
  else
    (sentenceRuns (protectAbbreviations text.data) [] []).map (fun m =>
      let s := restoreAbbreviations (trimWS m)
      let str := String.mk s
      let wc := (wordRunsL s []).length
      { text := str
        wordCount := wc
        punctuationCount := (s.filter (fun c => !isWordChar c && !jsWS c)).length
        stype := determineSentenceType str
        complexity := calculateSentenceComplexity str wc })

/-- A JavaScript value at the analyzer boundary (only the shapes the
claims need). -/
inductive JSVal where
  | str (s : String)
  | null
  | undef
  | num (q : ℚ)
deriving DecidableEq, Repr

/-- `sentenceParser` called on an arbitrary JavaScript value: the
`!text || typeof text !== 'string'` guard returns an empty generator for
every non-string (and for the empty string). -/
def AdvancedTextParser.sentenceParserJS : JSVal → List Sentence
  | .str s => AdvancedTextParser.sentenceParser s
  | _ => []

/-! ## textPreprocessor (src/scripts/textPreprocessor.js 113-156)

`splitIntoSentences` (and `statisticsEngine.countSentences` below) read
`config.validation.abbreviationPatterns`.  That configuration object is
not among the script files, but src/README.md (lines 393-401) records it
verbatim; the pattern list below is taken from there.  Each pattern is a
case-insensitive literal whose only period is escaped (`/Mr\./gi`, …). -/

def abbreviationPatternsCI : List String :=
  ["Mr.", "Mrs.", "Ms.", "Dr.", "Prof.", "Inc.", "Ltd.", "Co.", "Corp.",
   "St.", "Ave.", "Blvd.", "Rd.", "etc.", "vs."]

/-- The replacement callback `match => match.replace('.', '|ABBREV|')`:
only the first period of the matched text is replaced. -/
def firstDotToAbbrev : List Char → List Char
  | [] => []
  | c :: rest => if c = '.' then "|ABBREV|".data ++ rest else c :: firstDotToAbbrev rest

/-- The abbreviation-protection loop shared by
`textPreprocessor.splitIntoSentences` and
`statisticsEngine.countSentences`. -/
def protectAbbreviationsCI (l : List Char) : List Char :=
  abbreviationPatternsCI.foldl
    (fun acc p => scanReplace (ciMatcher p.data) firstDotToAbbrev acc) l

/-- `textPreprocessor.splitIntoWords`
(src/scripts/textPreprocessor.js 118-123): split on `/\s+/`, drop empty
pieces, then lower-case and strip `[^\w]` — in that order, so a piece can
become empty after the filter. -/
def textPreprocessor.splitIntoWords (text : String) : List String :=
  (((splitRuns jsWS text.data).filter (fun w => !w.isEmpty)).map
    (fun w => String.mk ((w.map asciiLower).filter isWordChar)))

/-- `textPreprocessor.splitIntoSentences`
(src/scripts/textPreprocessor.js 130-144): protect the configured
abbreviations with the `|ABBREV|` sentinel, split on `/[.!?]+/`, restore
the sentinel to a period, trim, and drop empty fragments. -/
def textPreprocessor.splitIntoSentences (text : String) : List String :=
  (((splitRuns isTermCh (protectAbbreviationsCI text.data)).map
      (fun piece => trimWS (scanReplace (csMatcher "|ABBREV|".data) (fun _ => ['.']) piece)))
    |>.filter (fun s => !s.isEmpty)).map String.mk

/-- `textPreprocessor.splitIntoParagraphs`
(src/scripts/textPreprocessor.js 151-156): split on `/\n\s*\n/`, trim,
drop empty fragments. -/
def textPreprocessor.splitIntoParagraphs (text : String) : List String :=
  (((paraSplit text.data []).map trimWS).filter (fun s => !s.isEmpty)).map String.mk

/-- `splitIntoWords` on an arbitrary JavaScript value: the function has no
type guard, so a non-string receiver throws (`text.split` is not a
function / not defined on `null`). -/
def textPreprocessor.splitIntoWordsJS : JSVal → Except String (List String)
  | .str s => .ok (textPreprocessor.splitIntoWords s)
  | _ => .error "TypeError"

/-- `splitIntoSentences` on an arbitrary JavaScript value: unguarded, so a
non-string receiver throws when `.replace` is first called on it. -/
def textPreprocessor.splitIntoSentencesJS : JSVal → Except String (List String)
  | .str s => .ok (textPreprocessor.splitIntoSentences s)
  | _ => .error "TypeError"

/-- `splitIntoParagraphs` on an arbitrary JavaScript value: unguarded. -/
def textPreprocessor.splitIntoParagraphsJS : JSVal → Except String (List String)
  | .str s => .ok (textPreprocessor.splitIntoParagraphs s)
  | _ => .error "TypeError"

/-! ## statisticsEngine (src/unnamed/part_001) -/

/-- The character scan of `statisticsEngine.countSentences`: count `.`,
`!`, `?` outside `|…|`-delimited regions (every `|` toggles the
`inAbbreviation` flag). -/
def countTerminals : List Char → Bool → ℕ
  | [], _ => 0
  | c :: rest, inAbbr =>
    if c = '|' then countTerminals rest (!inAbbr)
    else (if !inAbbr && isTermCh c then 1 else 0) + countTerminals rest inAbbr

/-- `statisticsEngine.countSentences` (src/unnamed/part_001 100-128):
0 for a falsy or non-string input, otherwise protect the configured
abbreviations with `|ABBREV|`, count terminators outside sentinels, and
floor at 1. -/
def statisticsEngine.countSentences (text : String) : ℕ :=
  if text = "" then 0
  else max 1 (countTerminals (protectAbbreviationsCI text.data) false)

/-- `statisticsEngine.countParagraphs` (src/unnamed/part_001 135-148):
0 for a falsy input, otherwise count the fragments of the `/\n\s*\n/`
split whose trim is nonempty, floored at 1. -/
def statisticsEngine.countParagraphs (text : String) : ℕ :=
  if text = "" then 0
  else max 1 (((paraSplit text.data []).map trimWS).filter (fun s => !s.isEmpty)).length

/-! ## JavaScript numbers

The readability formulas divide by word/sentence counts that can be zero,
so their values live in the IEEE value space `ℚ ∪ {NaN, ±Infinity}`
(rounding error aside, which no claim depends on).  `JSNum` models that
space with exact rationals. -/

inductive JSNum where
  | nan
  | inf
  | ninf
  | fin (q : ℚ)
deriving DecidableEq, Repr

namespace JSNum

instance : OfNat JSNum n := ⟨fin (OfNat.ofNat n)⟩

def add : JSNum → JSNum → JSNum
  | nan, _ => nan
  | _, nan => nan
  | inf, ninf => nan
  | ninf, inf => nan
  | inf, _ => inf
  | _, inf => inf
  | ninf, _ => ninf
  | _, ninf => ninf
  | fin a, fin b => fin (a + b)

def neg : JSNum → JSNum
  | nan => nan
  | inf => ninf
  | ninf => inf
  | fin q => fin (-q)

def sub (a b : JSNum) : JSNum := add a (neg b)

def mul : JSNum → JSNum → JSNum
  | nan, _ => nan
  | _, nan => nan
  | inf, inf => inf
  | inf, ninf => ninf
  | ninf, inf => ninf
  | ninf, ninf => inf
  | inf, fin q => if q = 0 then nan else if 0 < q then inf else ninf
  | fin q, inf => if q = 0 then nan else if 0 < q then inf else ninf
  | ninf, fin q => if q = 0 then nan else if 0 < q then ninf else inf
  | fin q, ninf => if q = 0 then nan else if 0 < q then ninf else inf
  | fin a, fin b => fin (a * b)

def div : JSNum → JSNum → JSNum
  | nan, _ => nan
  | _, nan => nan
  | inf, inf => nan
  | inf, ninf => nan
  | ninf, inf => nan
  | ninf, ninf => nan
  | inf, fin q => if 0 ≤ q then inf else ninf
  | ninf, fin q => if 0 ≤ q then ninf else inf
  | fin _, inf => fin 0
  | fin _, ninf => fin 0
  | fin a, fin b =>
    if b = 0 then (if a = 0 then nan else if 0 < a then inf else ninf)
    else fin (a / b)

/-- `Math.max` (two arguments): `NaN` is absorbing. -/
def jmax : JSNum → JSNum → JSNum
  | nan, _ => nan
  | _, nan => nan
  | inf, _ => inf
  | _, inf => inf
  | ninf, b => b
  | a, ninf => a
  | fin a, fin b => fin (max a b)

/-- `Math.min` (two arguments): `NaN` is absorbing. -/
def jmin : JSNum → JSNum → JSNum
  | nan, _ => nan
  | _, nan => nan
  | ninf, _ => ninf
  | _, ninf => ninf
  | inf, b => b
  | a, inf => a
  | fin a, fin b => fin (min a b)

/-- `Math.round`: round half toward `+∞`, i.e. `⌊x + 1/2⌋`. -/
def jround : JSNum → JSNum
  | nan => nan
  | inf => inf
  | ninf => ninf
  | fin q => fin ((⌊q + 1/2⌋ : ℤ) : ℚ)

/-- `Utils.math.round(x, 2)` (src/scripts/utils.js 163-165):
`Math.round(x * 100) / 100`. -/
def round2 (x : JSNum) : JSNum :=
  div (jround (mul x (fin 100))) (fin 100)

end JSNum

/-- `Utils.math.round(x, 2)` on a plain rational. -/
def Utils.math.round2 (q : ℚ) : ℚ :=
  ((⌊q * 100 + 1/2⌋ : ℤ) : ℚ) / 100

/-- `Utils.math.fleschReadingEase` (src/scripts/utils.js 179-188): returns
0 when either count is 0, otherwise the UNCLAMPED rounded formula value. -/
def Utils.math.fleschReadingEase (totalWords totalSentences totalSyllables : ℕ) : ℚ :=
  if totalWords = 0 ∨ totalSentences = 0 then 0
  else
    Utils.math.round2
      (206.835 - 1.015 * ((totalWords : ℚ) / totalSentences)
        - 84.6 * ((totalSyllables : ℚ) / totalWords))

/-! ## ReadabilityAnalyzer (src/scripts/readabilityAnalyzer.js)

The private metric helpers of the constructor, as pure functions of the
analyzed text. -/

namespace ReadabilityAnalyzer

/-- `_calculateWordCount`: `(text.match(/\b\w+\b/g) || []).length`. -/
def wordCount (text : String) : ℕ := (wordMatches text).length

/-- `_calculateSentenceCount`:
`Math.max(Array.from(AdvancedTextParser.sentenceParser(text)).length, 1)`. -/
def sentenceCount (text : String) : ℕ :=
  max (AdvancedTextParser.sentenceParser text).length 1

/-- `AdvancedTextParser.countTextSyllables(text).totalSyllables`
(src/scripts/frequencyAnalyzer.js 1751-1784). -/
def syllableCount (text : String) : ℕ :=
  ((wordMatches text).map AdvancedTextParser.countSyllables).sum

/-- `_calculateCharacterCount`: `text.replace(/\s/g, '').length`. -/
def characterCount (text : String) : ℕ :=
  (text.data.filter (fun c => !jsWS c)).length

/-- `_getComplexWords().length`: words scoring ≥ 3 syllables. -/
def complexWordCount (text : String) : ℕ :=
  ((wordMatches text).filter (fun w => 3 ≤ AdvancedTextParser.countSyllables w)).length

/-- `averageWordsPerSentence` of `_calculateBaseMetrics`. -/
def averageWordsPerSentence (text : String) : JSNum :=
  JSNum.div (.fin (wordCount text)) (.fin (sentenceCount text))

/-- `averageSyllablesPerWord` of `_calculateBaseMetrics` (NaN when the
text has no words, since both counts are then 0). -/
def averageSyllablesPerWord (text : String) : JSNum :=
  JSNum.div (.fin (syllableCount text)) (.fin (wordCount text))

/-- `averageCharactersPerWord` of `_calculateBaseMetrics`. -/
def averageCharactersPerWord (text : String) : JSNum :=
  JSNum.div (.fin (characterCount text)) (.fin (wordCount text))

/-- `_calculateFleschScore().score`
(src/scripts/readabilityAnalyzer.js 116-134):
`Math.max(0, Math.min(100, round(206.835 - 1.015·AWS - 84.6·ASW, 2)))`. -/
def fleschScore (text : String) : JSNum :=
  JSNum.jmax 0 (JSNum.jmin 100 (JSNum.round2
    (JSNum.sub
      (JSNum.sub (.fin 206.835) (JSNum.mul (.fin 1.015) (averageWordsPerSentence text)))
      (JSNum.mul (.fin 84.6) (averageSyllablesPerWord text)))))

/-- `_calculateFleschKincaidGrade().grade`
(src/scripts/readabilityAnalyzer.js 158-176):
`Math.max(0, round(0.39·AWS + 11.8·ASW - 15.59, 2))`. -/
def fleschKincaidGrade (text : String) : JSNum :=
  JSNum.jmax 0 (JSNum.round2
    (JSNum.sub
      (JSNum.add (JSNum.mul (.fin 0.39) (averageWordsPerSentence text))
        (JSNum.mul (.fin 11.8) (averageSyllablesPerWord text)))
      (.fin 15.59)))

/-- `_calculateGunningFog().index`
(src/scripts/readabilityAnalyzer.js 184-203):
`round(0.4·(AWS + 100·complex/words), 2)` — no floor. -/
def gunningFog (text : String) : JSNum :=
  JSNum.round2 (JSNum.mul (.fin 0.4)
    (JSNum.add (averageWordsPerSentence text)
      (JSNum.mul (.fin 100)
        (JSNum.div (.fin (complexWordCount text)) (.fin (wordCount text))))))

/-- `_calculateColemanLiau().index`
(src/scripts/readabilityAnalyzer.js 236-255):
`Math.max(0, round(0.0588·L - 0.296·S - 15.8, 2))` with
`L = 100·chars/words`, `S = 100·sentences/words`. -/
def colemanLiau (text : String) : JSNum :=
  let L := JSNum.mul (JSNum.div (.fin (characterCount text)) (.fin (wordCount text))) (.fin 100)
  let S := JSNum.mul (JSNum.div (.fin (sentenceCount text)) (.fin (wordCount text))) (.fin 100)
  JSNum.jmax 0 (JSNum.round2
    (JSNum.sub (JSNum.sub (JSNum.mul (.fin 0.0588) L) (JSNum.mul (.fin 0.296) S)) (.fin 15.8)))

/-- `_calculateARI().index` (src/scripts/readabilityAnalyzer.js 263-281):
`Math.max(0, round(4.71·ACW + 0.5·AWS - 21.43, 2))`. -/
def ari (text : String) : JSNum :=
  JSNum.jmax 0 (JSNum.round2
    (JSNum.sub
      (JSNum.add (JSNum.mul (.fin 4.71) (averageCharactersPerWord text))
        (JSNum.mul (.fin 0.5) (averageWordsPerSentence text)))
      (.fin 21.43)))

/-- The consensus record of `_calculateConsensusGrade`
(src/scripts/readabilityAnalyzer.js 344-367). -/
structure Consensus where
  averageGrade : JSNum
  gradesUsed : ℕ
  rangeMin : JSNum
  rangeMax : JSNum
deriving DecidableEq, Repr

/-- `_calculateConsensusGrade`, as a function of the five optional
grade-style scores it reads from `_scores` (one per enabled option;
`_scores.flesch` is never pushed).  Returns `null` when no grade was
computed; otherwise the rounded mean together with `Math.min`/`Math.max`
of the grades and their count. -/
def consensusGrade (fleschKincaid gunningFog smog colemanLiau ari : Option JSNum) :
    Option Consensus :=
  let grades := [fleschKincaid, gunningFog, smog, colemanLiau, ari].filterMap id
  match grades with
  | [] => none
  | g :: gs =>
    some
      { averageGrade :=
          JSNum.round2 (JSNum.div ((g :: gs).foldl JSNum.add (.fin 0)) (.fin (g :: gs).length))
        gradesUsed := (g :: gs).length
        rangeMin := gs.foldl JSNum.jmin g
        rangeMax := gs.foldl JSNum.jmax g }

end ReadabilityAnalyzer

/-! ## FrequencyAnalyzer (src/scripts/frequencyAnalyzer.js 13-131) -/

namespace FrequencyAnalyzer

/-- `config.stopWords` (src/scripts/frequencyAnalyzer.js 17-25). -/
def stopWords : List String :=
  ["the", "a", "an", "and", "or", "but", "in", "on", "at", "to", "for",
   "of", "with", "by", "from", "up", "about", "into", "through", "during",
   "before", "after", "above", "below", "between", "under", "again", "further",
   "then", "once", "here", "there", "when", "where", "why", "how", "all",
   "both", "each", "few", "more", "most", "other", "some", "such", "only",
   "own", "same", "so", "than", "too", "very", "can", "will", "just", "should"]

/-- The analysis options destructured by `analyzeWordFrequency`, with the
source's defaults (`config.minWordLength = 2`, `config.maxResults = 50`). -/
structure Options where
  excludeStopWords : Bool := true
  caseSensitive : Bool := false
  minLength : ℕ := 2
  maxResults : ℕ := 50
deriving DecidableEq, Repr

/-- A JavaScript `Map` with insertion-order iteration, as an association
list: `set` updates in place, otherwise appends. -/
def mapSet (m : List (String × ℕ)) (k : String) (v : ℕ) : List (String × ℕ) :=
  if m.any (fun p => p.1 = k) then
    m.map (fun p => if p.1 = k then (k, v) else p)
  else m ++ [(k, v)]

def mapGet (m : List (String × ℕ)) (k : String) : Option ℕ :=
  (m.find? (fun p => p.1 = k)).map (·.2)

/-- The `words.forEach` loop of `analyzeWordFrequency`: normalize, apply
the length and stop-word filters, and count into the insertion-ordered
frequency map. -/
def buildFrequencyMap (opts : Options) (words : List String) :
    List (String × ℕ) :=
  words.foldl
    (fun m word =>
      let processed := if opts.caseSensitive then word else String.mk (word.data.map asciiLower)
      if processed.length < opts.minLength then m
      else if opts.excludeStopWords && stopWords.contains processed then m
      else mapSet m processed ((mapGet m processed).getD 0 + 1))
    []

/-- One entry of `topWords`: `{rank, word, count, percentage: 0}`. -/
structure TopWord where
  rank : ℕ
  word : String
  count : ℕ
  percentage : ℚ
deriving DecidableEq, Repr

/-- Stable insertion into a descending-by-count list: an element passes
every strictly greater count and stops before the first `≤` count, so
among equal counts earlier input elements stay first — the behaviour of
the (spec-mandated stable) `Array.prototype.sort((a, b) => b[1] - a[1])`. -/
def insertDesc (x : String × ℕ) : List (String × ℕ) → List (String × ℕ)
  | [] => [x]
  | y :: ys => if x.2 < y.2 then y :: insertDesc x ys else x :: y :: ys

/-- Stable descending sort by count (`frequencyArray.sort((a,b) => b[1]-a[1])`). -/
def sortDesc : List (String × ℕ) → List (String × ℕ)
  | [] => []
  | x :: xs => insertDesc x (sortDesc xs)

/-- The `slice(0, maxLimit).forEach(([word, count], index) => …)` loop. -/
def buildTopWords : ℕ → List (String × ℕ) → List TopWord
  | _, [] => []
  | i, (w, c) :: rest => ⟨i + 1, w, c, 0⟩ :: buildTopWords (i + 1) rest

/-- `sortByFrequency` (src/scripts/frequencyAnalyzer.js 109-131). -/
def sortByFrequency (m : List (String × ℕ)) (limit : ℕ) : List TopWord :=
  let arr := sortDesc m
  buildTopWords 0 (arr.take (min limit arr.length))

/-- The result object of `analyzeWordFrequency` (the statistics and
diversity interpretation strings are UI text and are not modelled; the
`uniqueWords` set is determined by the map's keys). -/
structure FrequencyResult where
  frequencyMap : List (String × ℕ)
  totalWords : ℕ
  uniqueCount : ℕ
  topWords : List TopWord
deriving DecidableEq, Repr

/-- `analyzeWordFrequency` (src/scripts/frequencyAnalyzer.js 37-100). -/
def analyzeWordFrequency (text : String) (opts : Options) : FrequencyResult :=
  if text = "" then
    { frequencyMap := [], totalWords := 0, uniqueCount := 0, topWords := [] }
  else
    let words := wordMatches text
    let m := buildFrequencyMap opts words
    { frequencyMap := m
      totalWords := (m.map (·.2)).sum
      uniqueCount := m.length
      topWords := sortByFrequency m opts.maxResults }

end FrequencyAnalyzer

/-! ## TextAnalyzerAPI (src/scripts/textPreprocessor.js 1247-1294)

`analyze` consults a static memo cache keyed on
`` `${text.substring(0,100)}_${JSON.stringify(options)}` `` and stamps
each freshly computed report with `new Date().toISOString()`.  The cache
and the clock are explicit here: `analyze` takes the cache state and the
current time and returns the report with the new state.  The payload is
built from the embedded sub-analyses (frequency, the AdvancedTextParser
sentence pass, and the ReadabilityAnalyzer scores; SMOG is omitted
because its square root is irrational, and the vocabulary/pattern UI
analytics are likewise outside every claim — none of them interact with
the cache or the timestamp). -/

namespace TextAnalyzerAPI

/-- The deterministic part of one analysis: a pure function of the text
alone (the source passes none of the options to its sub-analyzers). -/
structure Payload where
  textLength : ℕ
  sentences : List Sentence
  frequency : FrequencyAnalyzer.FrequencyResult
  flesch : JSNum
  fleschKincaid : JSNum
  gunningFog : JSNum
  colemanLiau : JSNum
  ari : JSNum
deriving DecidableEq, Repr

structure Report where
  version : String
  analyzedAt : ℕ
  payload : Payload
deriving DecidableEq, Repr

def computePayload (text : String) : Payload :=
  { textLength := text.length
    sentences := AdvancedTextParser.sentenceParser text
    frequency := FrequencyAnalyzer.analyzeWordFrequency text {}
    flesch := ReadabilityAnalyzer.fleschScore text
    fleschKincaid := ReadabilityAnalyzer.fleschKincaidGrade text
    gunningFog := ReadabilityAnalyzer.gunningFog text
    colemanLiau := ReadabilityAnalyzer.colemanLiau text
    ari := ReadabilityAnalyzer.ari text }

/-- The static `#cache` map (insertion at the front; only lookup order
matters). -/
def Cache := List ((String × String) × Report)

def emptyCache : Cache := []

def cacheFind : Cache → String × String → Option Report
  | [], _ => none
  | (k, r) :: rest, key => if k = key then some r else cacheFind rest key

/-- `TextAnalyzerAPI.analyze(text, options)`
(src/scripts/textPreprocessor.js 1268-1294), with the hidden inputs made
explicit: `optionsJson` is `JSON.stringify(options)` (used only in the
cache key), `cache` is the static `#cache`, `now` the clock.  A cache hit
returns the stored report unchanged; a miss computes the report, stamps
it with `now`, and stores it under `text.substring(0,100) + "_" +
optionsJson`. -/
def analyze (text : String) (optionsJson : String) (cache : Cache) (now : ℕ) :
    Report × Cache :=
  let key := (text.take 100, optionsJson)
  match cacheFind cache key with
  | some r => (r, cache)
  | none =>
    let r : Report := { version := "1.0.0", analyzedAt := now, payload := computePayload text }
    (r, (key, r) :: cache)

end TextAnalyzerAPI

/-! ## Helper lemmas -/

namespace JSNum

@[simp] theorem add_fin (a b : ℚ) : add (fin a) (fin b) = fin (a + b) := rfl

@[simp] theorem neg_fin (a : ℚ) : neg (fin a) = fin (-a) := rfl

@[simp] theorem sub_fin (a b : ℚ) : sub (fin a) (fin b) = fin (a - b) := by
  simp [sub, add, neg, sub_eq_add_neg]

@[simp] theorem mul_fin (a b : ℚ) : mul (fin a) (fin b) = fin (a * b) := rfl

theorem div_fin {b : ℚ} (a : ℚ) (h : b ≠ 0) : div (fin a) (fin b) = fin (a / b) := by
  simp [div, h]

@[simp] theorem jmax_fin (a b : ℚ) : jmax (fin a) (fin b) = fin (max a b) := rfl

@[simp] theorem jmin_fin (a b : ℚ) : jmin (fin a) (fin b) = fin (min a b) := rfl

@[simp] theorem round2_fin (q : ℚ) :
    round2 (fin q) = fin (TextAnalyser.Utils.math.round2 q) := by
  simp [round2, jround, mul, div, TextAnalyser.Utils.math.round2]

theorem clamp_bounds {x : JSNum} {r : ℚ} (h : x = fin r) :
    ∃ q : ℚ, jmax 0 (jmin 100 x) = fin q ∧ 0 ≤ q ∧ q ≤ 100 := by
  subst h
  exact ⟨_, rfl, le_max_left _ _, max_le (by norm_num) (min_le_left _ _)⟩

theorem floor_bound {x : JSNum} {r : ℚ} (h : x = fin r) :
    ∃ q : ℚ, jmax 0 x = fin q ∧ 0 ≤ q :=
  h ▸ ⟨_, rfl, le_max_left _ _⟩

end JSNum

namespace FrequencyAnalyzer

theorem mem_insertDesc {z x : String × ℕ} :
    ∀ {l : List (String × ℕ)}, z ∈ insertDesc x l → z = x ∨ z ∈ l
  | [], h => by simpa [insertDesc] using h
  | y :: ys, h => by
    rw [insertDesc] at h
    split at h
    · rcases List.mem_cons.mp h with h | h
      · exact Or.inr (List.mem_cons.mpr (Or.inl h))
      · rcases mem_insertDesc h with h | h
        · exact Or.inl h
        · exact Or.inr (List.mem_cons.mpr (Or.inr h))
    · rcases List.mem_cons.mp h with h | h
      · exact Or.inl h
      · exact Or.inr h

theorem insertDesc_pairwise (x : String × ℕ) :
    ∀ {l : List (String × ℕ)}, l.Pairwise (fun a b => b.2 ≤ a.2) →
      (insertDesc x l).Pairwise (fun a b => b.2 ≤ a.2)
  | [], _ => List.pairwise_singleton _ _
  | y :: ys, h => by
    rw [insertDesc]
    rcases List.pairwise_cons.mp h with ⟨hy, hys⟩
    split
    · refine List.pairwise_cons.mpr ⟨fun z hz => ?_, insertDesc_pairwise x hys⟩
      rcases mem_insertDesc hz with rfl | hz
      · omega
      · exact hy z hz
    · refine List.pairwise_cons.mpr ⟨fun z hz => ?_, h⟩
      rcases List.mem_cons.mp hz with rfl | hz
      · omega
      · have := hy z hz; omega

theorem sortDesc_pairwise :
    ∀ m : List (String × ℕ), (sortDesc m).Pairwise (fun a b => b.2 ≤ a.2)
  | [] => List.Pairwise.nil
  | x :: xs => insertDesc_pairwise x (sortDesc_pairwise xs)

theorem insertDesc_filter (x : String × ℕ) (c : ℕ) :
    ∀ {l : List (String × ℕ)}, l.Pairwise (fun a b => b.2 ≤ a.2) →
      (insertDesc x l).filter (fun p => p.2 == c) = (x :: l).filter (fun p => p.2 == c)
  | [], _ => rfl
  | y :: ys, h => by
    rcases List.pairwise_cons.mp h with ⟨hy, hys⟩
    rw [insertDesc]
    split
    · rename_i hlt
      by_cases hyc : y.2 = c
      · have hxc : ¬ x.2 = c := by omega
        simp [List.filter_cons, hyc, hxc, insertDesc_filter x c hys]
      · by_cases hxc : x.2 = c <;>
          simp [List.filter_cons, hyc, hxc, insertDesc_filter x c hys]
    · rfl

theorem sortDesc_filter (c : ℕ) :
    ∀ m : List (String × ℕ),
      (sortDesc m).filter (fun p => p.2 == c) = m.filter (fun p => p.2 == c)
  | [] => rfl
  | x :: xs => by
    rw [sortDesc, insertDesc_filter x c (sortDesc_pairwise xs)]
    by_cases hxc : x.2 = c <;> simp [List.filter_cons, hxc, sortDesc_filter c xs]

theorem buildTopWords_map_rank :
    ∀ (l : List (String × ℕ)) (i : ℕ),
      (buildTopWords i l).map TopWord.rank = List.range' (i + 1) l.length
  | [], _ => rfl
  | (w, c) :: rest, i => by
    simp [buildTopWords, List.range'_succ, buildTopWords_map_rank rest (i + 1)]

theorem buildTopWords_map_count :
    ∀ (l : List (String × ℕ)) (i : ℕ),
      (buildTopWords i l).map TopWord.count = l.map (·.2)
  | [], _ => rfl
  | (w, c) :: rest, i => by
    simp [buildTopWords, buildTopWords_map_count rest (i + 1)]

theorem buildTopWords_length :
    ∀ (l : List (String × ℕ)) (i : ℕ), (buildTopWords i l).length = l.length
  | [], _ => rfl
  | (w, c) :: rest, i => by simp [buildTopWords, buildTopWords_length rest (i + 1)]

theorem buildTopWords_pairwise :
    ∀ {l : List (String × ℕ)} (i : ℕ), l.Pairwise (fun a b => b.2 ≤ a.2) →
      (buildTopWords i l).Pairwise (fun a b => b.count ≤ a.count)
  | [], _, _ => List.Pairwise.nil
  | (w, c) :: rest, i, h => by
    rcases List.pairwise_cons.mp h with ⟨hw, hrest⟩
    refine List.pairwise_cons.mpr ⟨fun z hz => ?_, buildTopWords_pairwise (i + 1) hrest⟩
    show z.count ≤ c
    have hzc : z.count ∈ (buildTopWords (i + 1) rest).map TopWord.count :=
      List.mem_map_of_mem TopWord.count hz
    rw [buildTopWords_map_count] at hzc
    rcases List.mem_map.mp hzc with ⟨p, hp, hpz⟩
    have := hw p hp
    omega

end FrequencyAnalyzer

end TextAnalyser

open TextAnalyser

/-! ## Claims -/

/-- C1: the claim states that sentence extraction protects decimal
digit-period-digit sequences and yields exactly 1 sentence for
"The value is 3.14 today.".  Neither cited implementation protects
decimals: both split inside 3.14 and return 2 sentences, contradicting
the code's own comment "Handle abbreviations and decimal numbers"
(src/scripts/textPreprocessor.js 131). -/
theorem C1_decimal_not_protected :
    textPreprocessor.splitIntoSentences "The value is 3.14 today."
        = ["The value is 3", "14 today"] ∧
    (AdvancedTextParser.sentenceParser "The value is 3.14 today.").map Sentence.text
        = ["The value is 3.", "14 today."] ∧
    (textPreprocessor.splitIntoSentences "The value is 3.14 today.").length = 2 ∧
    (AdvancedTextParser.sentenceParser "The value is 3.14 today.").length = 2 := by
  refine ⟨by decide, by decide, by decide, by decide⟩

/-- C2: with the known abbreviations sentinel-protected,
"Dr. Smith went home. He was tired." splits into exactly 2 sentences in
both cited implementations, and every abbreviation of the
AdvancedTextParser list fails to open a sentence break in the same
frame. -/
theorem C2_abbreviations_protected :
    (AdvancedTextParser.sentenceParser "Dr. Smith went home. He was tired.").map Sentence.text
        = ["Dr. Smith went home.", "He was tired."] ∧
    (AdvancedTextParser.sentenceParser "Dr. Smith went home. He was tired.").length = 2 ∧
    statisticsEngine.countSentences "Dr. Smith went home. He was tired." = 2 ∧
    parserAbbreviations.all
      (fun a =>
        (AdvancedTextParser.sentenceParser (a ++ " Smith went home. He was tired.")).length == 2)
      = true := by
  refine ⟨by decide, by decide, by decide, by decide⟩

/-- C3 counterexample: for the empty string, statisticsEngine (the
engine whose counts the report carries) returns 0 sentences and 0
paragraphs through its falsy-input guard, not the claimed floor of 1. -/
theorem C3_empty_string_counts_zero :
    statisticsEngine.countSentences "" = 0 ∧ statisticsEngine.countParagraphs "" = 0 := by
  exact ⟨rfl, rfl⟩

/-- C3 amended: the ReadabilityAnalyzer sentence count is at least 1 for
every string including the empty one, and statisticsEngine's sentence and
paragraph counts are at least 1 for every nonempty string (the empty
string hits the falsy guard and yields 0). -/
theorem C3_counts_floored_at_one (text : String) :
    1 ≤ ReadabilityAnalyzer.sentenceCount text ∧
    (text ≠ "" →
      1 ≤ statisticsEngine.countSentences text ∧
      1 ≤ statisticsEngine.countParagraphs text) := by
  refine ⟨Nat.le_max_right _ _, fun h => ⟨?_, ?_⟩⟩
  · rw [statisticsEngine.countSentences, if_neg h]
    exact Nat.le_max_left _ _
  · rw [statisticsEngine.countParagraphs, if_neg h]
    exact Nat.le_max_left _ _

/-- C3 witness: the floors instantiated at a concrete nonempty string. -/
theorem C3_counts_floored_at_one_witness :
    1 ≤ ReadabilityAnalyzer.sentenceCount "a" ∧
    1 ≤ statisticsEngine.countSentences "a" ∧
    1 ≤ statisticsEngine.countParagraphs "a" := by
  obtain ⟨h1, h2⟩ := C3_counts_floored_at_one "a"
  obtain ⟨h3, h4⟩ := h2 (by decide)
  exact ⟨h1, h3, h4⟩

/-- C5 counterexample: "123" is a nonempty word, yet the syllable counter
returns 0 for it (stripping non-letters leaves the empty string), so the
claim's floor "at least 1 for every non-empty word" fails as stated. -/
theorem C5_nonletter_word_zero :
    AdvancedTextParser.countSyllables "123" = 0 ∧ "123" ≠ "" := by
  exact ⟨by decide, by decide⟩

/-- C5 amended: the syllable counter returns 0 for the empty string, 1
for "a", 1 for "the", 3 for "simile" (exception table), 3 for
"beautiful" (vowel-group heuristic), and at least 1 for every word that
still contains a letter after stripping. -/
theorem C5_syllable_counter_values :
    AdvancedTextParser.countSyllables "" = 0 ∧
    AdvancedTextParser.countSyllables "a" = 1 ∧
    AdvancedTextParser.countSyllables "the" = 1 ∧
    AdvancedTextParser.countSyllables "simile" = 3 ∧
    AdvancedTextParser.countSyllables "beautiful" = 3 ∧
    ∀ w : String, cleanLetters w ≠ [] → 1 ≤ AdvancedTextParser.countSyllables w := by
  refine ⟨by decide, by decide, by decide, by decide, by decide, fun w hw => ?_⟩
  rw [AdvancedTextParser.countSyllables]
  have h0 : ¬ (cleanLetters w).length = 0 := fun h => hw (List.length_eq_zero.mp h)
  rw [if_neg h0]
  by_cases h2 : (cleanLetters w).length ≤ 2
  · rw [if_pos h2]
  · rw [if_neg h2]
    dsimp only
    split_ifs <;> norm_num

/-- C5 witness: the floor instantiated at a word with letters. -/
theorem C5_syllable_counter_values_witness :
    cleanLetters "cat" ≠ [] ∧ 1 ≤ AdvancedTextParser.countSyllables "cat" := by
  exact ⟨by decide, C5_syllable_counter_values.2.2.2.2.2 "cat" (by decide)⟩

/-- C4 counterexample: the claim's bounds fail on the cited code.  The
unclamped Utils.math.fleschReadingEase exceeds 100 already at one
one-syllable word in one sentence (121.22), and for the empty text the
ReadabilityAnalyzer scores are NaN (0/0 average syllables per word), not
numbers in the claimed ranges. -/
theorem C4_flesch_out_of_bounds :
    100 < Utils.math.fleschReadingEase 1 1 1 ∧
    ReadabilityAnalyzer.fleschScore "" = JSNum.nan ∧
    ReadabilityAnalyzer.fleschKincaidGrade "" = JSNum.nan := by
  have hASW : ReadabilityAnalyzer.averageSyllablesPerWord "" = JSNum.nan := by
    rw [ReadabilityAnalyzer.averageSyllablesPerWord,
      show ReadabilityAnalyzer.syllableCount "" = 0 from rfl,
      show ReadabilityAnalyzer.wordCount "" = 0 from rfl]
    norm_num [JSNum.div]
  have hAWS : ReadabilityAnalyzer.averageWordsPerSentence "" = JSNum.fin 0 := by
    rw [ReadabilityAnalyzer.averageWordsPerSentence,
      show ReadabilityAnalyzer.wordCount "" = 0 from rfl,
      show ReadabilityAnalyzer.sentenceCount "" = 1 from rfl]
    norm_num [JSNum.div]
  refine ⟨?_, ?_, ?_⟩
  · rw [Utils.math.fleschReadingEase]
    norm_num [Utils.math.round2]
  · rw [ReadabilityAnalyzer.fleschScore, hASW, hAWS]
    rfl
  · rw [ReadabilityAnalyzer.fleschKincaidGrade, hASW, hAWS]
    rfl

/-- C4 amended: whenever the text contains at least one word, the
ReadabilityAnalyzer's clamped scores satisfy the claimed bounds: the
Flesch Reading Ease score is a number in [0,100], and Flesch-Kincaid,
Coleman-Liau and ARI are numbers that are at least 0 (for wordless text
the scores are NaN, and the separate Utils.math.fleschReadingEase is
unclamped). -/
theorem C4_clamped_scores_bounded (text : String)
    (h : 1 ≤ ReadabilityAnalyzer.wordCount text) :
    (∃ q : ℚ, ReadabilityAnalyzer.fleschScore text = .fin q ∧ 0 ≤ q ∧ q ≤ 100) ∧
    (∃ q : ℚ, ReadabilityAnalyzer.fleschKincaidGrade text = .fin q ∧ 0 ≤ q) ∧
    (∃ q : ℚ, ReadabilityAnalyzer.colemanLiau text = .fin q ∧ 0 ≤ q) ∧
    (∃ q : ℚ, ReadabilityAnalyzer.ari text = .fin q ∧ 0 ≤ q) := by
  have hw : ((ReadabilityAnalyzer.wordCount text : ℚ)) ≠ 0 :=
    Nat.cast_ne_zero.mpr (by omega)
  have hs1 : 1 ≤ ReadabilityAnalyzer.sentenceCount text := Nat.le_max_right _ _
  have hs : ((ReadabilityAnalyzer.sentenceCount text : ℚ)) ≠ 0 :=
    Nat.cast_ne_zero.mpr (by omega)
  have hAWS : ReadabilityAnalyzer.averageWordsPerSentence text
      = .fin ((ReadabilityAnalyzer.wordCount text : ℚ) / (ReadabilityAnalyzer.sentenceCount text : ℚ)) := by
    rw [ReadabilityAnalyzer.averageWordsPerSentence]; exact JSNum.div_fin _ hs
  have hASW : ReadabilityAnalyzer.averageSyllablesPerWord text
      = .fin ((ReadabilityAnalyzer.syllableCount text : ℚ) / (ReadabilityAnalyzer.wordCount text : ℚ)) := by
    rw [ReadabilityAnalyzer.averageSyllablesPerWord]; exact JSNum.div_fin _ hw
  have hACW : ReadabilityAnalyzer.averageCharactersPerWord text
      = .fin ((ReadabilityAnalyzer.characterCount text : ℚ) / (ReadabilityAnalyzer.wordCount text : ℚ)) := by
    rw [ReadabilityAnalyzer.averageCharactersPerWord]; exact JSNum.div_fin _ hw
  refine ⟨?_, ?_, ?_, ?_⟩
  · rw [ReadabilityAnalyzer.fleschScore]
    apply JSNum.clamp_bounds
    rw [hAWS, hASW]
    simp only [JSNum.mul_fin, JSNum.sub_fin, JSNum.round2_fin]
    rfl
  · rw [ReadabilityAnalyzer.fleschKincaidGrade]
    apply JSNum.floor_bound
    rw [hAWS, hASW]
    simp only [JSNum.mul_fin, JSNum.add_fin, JSNum.sub_fin, JSNum.round2_fin]
    rfl
  · rw [ReadabilityAnalyzer.colemanLiau]
    apply JSNum.floor_bound
    rw [JSNum.div_fin ((ReadabilityAnalyzer.characterCount text : ℚ)) hw,
      JSNum.div_fin ((ReadabilityAnalyzer.sentenceCount text : ℚ)) hw]
    simp only [JSNum.mul_fin, JSNum.sub_fin, JSNum.round2_fin]
    rfl
  · rw [ReadabilityAnalyzer.ari]
    apply JSNum.floor_bound
    rw [hAWS, hACW]
    simp only [JSNum.mul_fin, JSNum.add_fin, JSNum.sub_fin, JSNum.round2_fin]
    rfl

/-- C4 witness: the amended bounds instantiated at a concrete two-word
sentence. -/
theorem C4_clamped_scores_bounded_witness :
    1 ≤ ReadabilityAnalyzer.wordCount "Hello world." ∧
    ((∃ q : ℚ, ReadabilityAnalyzer.fleschScore "Hello world." = .fin q ∧ 0 ≤ q ∧ q ≤ 100) ∧
     (∃ q : ℚ, ReadabilityAnalyzer.fleschKincaidGrade "Hello world." = .fin q ∧ 0 ≤ q) ∧
     (∃ q : ℚ, ReadabilityAnalyzer.colemanLiau "Hello world." = .fin q ∧ 0 ≤ q) ∧
     (∃ q : ℚ, ReadabilityAnalyzer.ari "Hello world." = .fin q ∧ 0 ≤ q)) :=
  ⟨by decide, C4_clamped_scores_bounded "Hello world." (by decide)⟩

/-- C6: the consensus grade averages exactly the computed grade-style
scores (Flesch-Kincaid, Gunning Fog, SMOG, Coleman-Liau, ARI; Flesch
Reading Ease never enters), reporting their rounded mean, min, max and
count; it is null exactly when no grade-style score was computed; and the
spec's instance 8.0/10.0/9.0/7.0/8.0 yields average 8.4, min 7, max 10,
gradesUsed 5. -/
theorem C6_consensus_grade :
    ReadabilityAnalyzer.consensusGrade (some (.fin 8)) (some (.fin 10)) (some (.fin 9))
        (some (.fin 7)) (some (.fin 8))
      = some { averageGrade := .fin 8.4, gradesUsed := 5, rangeMin := .fin 7, rangeMax := .fin 10 } ∧
    ReadabilityAnalyzer.consensusGrade none none none none none = none ∧
    ∀ a b c d e : Option JSNum,
      Option.elim (ReadabilityAnalyzer.consensusGrade a b c d e)
        ([a, b, c, d, e].filterMap id = [])
        (fun r => r.gradesUsed = ([a, b, c, d, e].filterMap id).length) := by
  refine ⟨?_, rfl, fun a b c d e => ?_⟩
  · simp only [ReadabilityAnalyzer.consensusGrade]
    norm_num [List.filterMap_cons, List.foldl_cons, List.foldl_nil,
      JSNum.add_fin, JSNum.jmin_fin, JSNum.jmax_fin, JSNum.div, JSNum.round2_fin,
      Utils.math.round2, min_def, max_def, ReadabilityAnalyzer.Consensus.mk.injEq]
  · rcases hl : [a, b, c, d, e].filterMap id with _ | ⟨g, gs⟩
    · simp [ReadabilityAnalyzer.consensusGrade, hl]
    · simp [ReadabilityAnalyzer.consensusGrade, hl]

/-- C7 counterexample: analyze is not a pure function of (text, options):
with an empty cache, the same text and options analyzed at two different
wall-clock instants produce different reports (the analyzedAt stamp of
src/scripts/readabilityAnalyzer.js 29 and textPreprocessor.js 1279
differs), so hidden inputs affect the result. -/
theorem C7_analyze_not_pure :
    (TextAnalyzerAPI.analyze "Hi." "{}" TextAnalyzerAPI.emptyCache 0).1
      ≠ (TextAnalyzerAPI.analyze "Hi." "{}" TextAnalyzerAPI.emptyCache 1).1 := by
  decide

/-- C7 amended: within one session, calling analyze twice with identical
text and options does return bit-identical reports — the second call is
served from the memo cache whatever the clock then reads — but analyze is
not a pure function of (text, options), since each fresh report embeds
the wall-clock timestamp. -/
theorem C7_analyze_memoized (text optionsJson : String) (cache : TextAnalyzerAPI.Cache)
    (now1 now2 : ℕ) :
    (TextAnalyzerAPI.analyze text optionsJson
        (TextAnalyzerAPI.analyze text optionsJson cache now1).2 now2).1
      = (TextAnalyzerAPI.analyze text optionsJson cache now1).1 := by
  unfold TextAnalyzerAPI.analyze
  cases h : TextAnalyzerAPI.cacheFind cache (text.take 100, optionsJson) with
  | some r => simp [h]
  | none => simp [h, TextAnalyzerAPI.cacheFind]

/-- C8: top-N word frequency results are ordered by descending count with
consecutive ranks from 1, the tie-break is the first-encountered order
(elements of equal count keep their relative order through the sort), and
the spec's instance "the the the cat cat dog" with stop words disabled
and minimum length 1 yields the/3/rank 1, cat/2/rank 2, dog/1/rank 3. -/
theorem C8_top_words :
    (FrequencyAnalyzer.analyzeWordFrequency "the the the cat cat dog"
        { excludeStopWords := false, caseSensitive := false,
          minLength := 1, maxResults := 50 }).topWords
      = [{ rank := 1, word := "the", count := 3, percentage := 0 },
         { rank := 2, word := "cat", count := 2, percentage := 0 },
         { rank := 3, word := "dog", count := 1, percentage := 0 }] ∧
    (∀ (m : List (String × ℕ)) (limit : ℕ),
      (FrequencyAnalyzer.sortByFrequency m limit).Pairwise
        (fun a b => b.count ≤ a.count)) ∧
    (∀ (m : List (String × ℕ)) (limit : ℕ),
      (FrequencyAnalyzer.sortByFrequency m limit).map FrequencyAnalyzer.TopWord.rank
        = List.range' 1 (FrequencyAnalyzer.sortByFrequency m limit).length) ∧
    (∀ (m : List (String × ℕ)) (c : ℕ),
      (FrequencyAnalyzer.sortDesc m).filter (fun p => p.2 == c)
        = m.filter (fun p => p.2 == c)) := by
  refine ⟨by decide, fun m limit => ?_, fun m limit => ?_,
    fun m c => FrequencyAnalyzer.sortDesc_filter c m⟩
  · rw [FrequencyAnalyzer.sortByFrequency]
    exact FrequencyAnalyzer.buildTopWords_pairwise 0
      (List.Pairwise.sublist (List.take_sublist _ _)
        (FrequencyAnalyzer.sortDesc_pairwise m))
  · rw [FrequencyAnalyzer.sortByFrequency, FrequencyAnalyzer.buildTopWords_map_rank,
      FrequencyAnalyzer.buildTopWords_length]

/-- C9 counterexample: word extraction in the textPreprocessor has no
type guard, so a non-string input (here null) throws a TypeError instead
of yielding an empty collection. -/
theorem C9_nonstring_throws :
    textPreprocessor.splitIntoWordsJS JSVal.null = .error "TypeError" := rfl

/-- C9 amended: the empty string yields empty collections at every stage,
and the AdvancedTextParser sentence stage also absorbs non-strings; but
all three unguarded textPreprocessor splitters throw a TypeError on any
non-string input. -/
theorem C9_empty_yields_empty_collections :
    textPreprocessor.splitIntoWordsJS (.str "") = .ok [] ∧
    textPreprocessor.splitIntoSentencesJS (.str "") = .ok [] ∧
    textPreprocessor.splitIntoParagraphsJS (.str "") = .ok [] ∧
    AdvancedTextParser.sentenceParserJS (.str "") = [] ∧
    (∀ v : JSVal, (∀ s, v ≠ .str s) →
      AdvancedTextParser.sentenceParserJS v = [] ∧
      textPreprocessor.splitIntoWordsJS v = .error "TypeError" ∧
      textPreprocessor.splitIntoSentencesJS v = .error "TypeError" ∧
      textPreprocessor.splitIntoParagraphsJS v = .error "TypeError") := by
  refine ⟨rfl, rfl, rfl, rfl, fun v hv => ?_⟩
  cases v with
  | str s => exact absurd rfl (hv s)
  | null => exact ⟨rfl, rfl, rfl, rfl⟩
  | undef => exact ⟨rfl, rfl, rfl, rfl⟩
  | num q => exact ⟨rfl, rfl, rfl, rfl⟩

/-- C9 witness: the non-string case instantiated at null. -/
theorem C9_empty_yields_empty_collections_witness :
    AdvancedTextParser.sentenceParserJS JSVal.null = [] ∧
    textPreprocessor.splitIntoWordsJS JSVal.null = .error "TypeError" ∧
    textPreprocessor.splitIntoSentencesJS JSVal.null = .error "TypeError" ∧
    textPreprocessor.splitIntoParagraphsJS JSVal.null = .error "TypeError" :=
  C9_empty_yields_empty_collections.2.2.2.2 JSVal.null
    (fun _ h => JSVal.noConfusion h)

/-- C10 counterexample: the two syllable counters disagree at "simile"
(the vowel-group counter gives 2, the character-scan counter's exception
table gives 3), so they do not compute the same count for every word. -/
theorem C10_syllable_counters_disagree :
    Utils.text.countSyllables "simile" ≠ AdvancedTextParser.countSyllables "simile" := by
  decide

/-- C10 amended: the two syllable counters agree on many words (for
example "a", "the", "beautiful", "chocolate") but are not equivalent: at
"simile" the vowel-group counter returns 2 while the character-scan
counter returns 3. -/
theorem C10_syllable_counters_partial_agreement :
    Utils.text.countSyllables "a" = 1 ∧ AdvancedTextParser.countSyllables "a" = 1 ∧
    Utils.text.countSyllables "the" = 1 ∧ AdvancedTextParser.countSyllables "the" = 1 ∧
    Utils.text.countSyllables "beautiful" = 3 ∧
    AdvancedTextParser.countSyllables "beautiful" = 3 ∧
    Utils.text.countSyllables "chocolate" = 3 ∧
    AdvancedTextParser.countSyllables "chocolate" = 3 ∧
    Utils.text.countSyllables "simile" = 2 ∧
    AdvancedTextParser.countSyllables "simile" = 3 := by
  refine ⟨by decide, by decide, by decide, by decide, by decide, by decide, by decide,
    by decide, by decide, by decide⟩
